import Mathlib

/-!
Verification of the `flask_saml2` XML parsing core
(`flask_saml2/xml_parser.py`, `flask_saml2/utils.py`).

The Python code orchestrates three external collaborators:
`defusedxml.lxml.fromstring` (safe XML parsing), signxml's
`XMLVerifier().verify` (cryptographic signature verification, projected to
its `signed_xml` field), and the abstract `is_signed` predicate that
subclasses of `XmlParser` implement.  We embed the orchestration code
faithfully, parameterised over those collaborators, and prove the spec's
claims about it.
-/

namespace FlaskSaml2

/-- Model of an lxml element tree (`lxml.etree.ElementBase`, aliased as
`XmlNode` in `flask_saml2/types.py`): a tag, attributes, and children. -/
inductive XmlTree where
  | node (tag : String) (attrs : List (String × String)) (children : List XmlTree)

/-- Model of `lxml.etree.Error`, the exception class caught in
`XmlParser.parse_request`. -/
inductive LxmlError where
  | error (msg : String)
deriving DecidableEq, Repr

/-- Model of the exceptions signxml's `XMLVerifier.verify` raises on
cryptographic failure: bad signature, digest mismatch, certificate
mismatch or required-but-absent certificate, unsupported algorithm. -/
inductive VerifyError where
  | invalidSignature
  | invalidDigest
  | certificateMismatch
  | certificateRequired
  | unsupportedAlgorithm
deriving DecidableEq, Repr

/-- Model of signxml's `VerifyResult`: the only field `parse_signed` uses is
`signed_xml`, the exact subtree covered by the signature's references. -/
structure VerifyResult where
  signed_xml : XmlTree

/-- The exceptions that can escape `XmlParser.__init__`: the `ValueError`
raised by `parse_request` on malformed XML, and a signxml verification
exception propagating out of `parse_signed` (the code does not catch it). -/
inductive ParserError where
  | valueError (msg : String)
  | signatureInvalid (e : VerifyError)

/-- The external collaborators of `XmlParser`, as the Python module imports
and calls them:
* `fromstring` is `defusedxml.lxml.fromstring` — parses a string or fails
  with an `lxml.etree.Error`;
* `is_signed` is the abstract predicate `XmlParser.is_signed`, implemented
  by each subclass as a structural check on the parsed tree;
* `verify` is `XMLVerifier().verify(tree, x509_cert=cert)` — `none` for the
  certificate means Python `None`, in which case signxml verifies against
  only the certificate embedded in the document;
* `xpath` is `lxml`'s `Element.xpath(statement, namespaces=...)`. -/
structure Deps (Cert : Type) where
  fromstring : String → Except LxmlError XmlTree
  is_signed : XmlTree → Bool
  verify : XmlTree → Option Cert → Except VerifyError VerifyResult
  xpath : XmlTree → String → List (String × String) → List XmlTree

/-- The fixed message of the `ValueError` raised by
`XmlParser.parse_request` on malformed XML. -/
def parseRequestMessage : String := "Could not parse request XML"

/-- Model of `XmlParser.parse_request`: calls `defusedxml.lxml.fromstring`
and converts any `lxml.etree.Error` into a `ValueError` with the fixed
message `"Could not parse request XML"` (the raw input is logged via the
logger, never placed in the exception). -/
def parse_request {Cert : Type} (ext : Deps Cert) (xml_string : String) :
    Except ParserError XmlTree :=
  match ext.fromstring xml_string with
  | .ok tree => .ok tree
  | .error _ => .error (.valueError parseRequestMessage)

/-- Model of `XmlParser.parse_signed`: returns
`XMLVerifier().verify(xml_tree, x509_cert=certificate).signed_xml`; a
verification exception propagates. -/
def parse_signed {Cert : Type} (ext : Deps Cert) (xml_tree : XmlTree)
    (certificate : Option Cert) : Except ParserError XmlTree :=
  match ext.verify xml_tree certificate with
  | .ok result => .ok result.signed_xml
  | .error e => .error (.signatureInvalid e)

/-- The state an `XmlParser` instance holds after `__init__` returns:
the input string, the working tree, and the certificate attribute
(`None` when no certificate was supplied, matching the class default). -/
structure XmlParser (Cert : Type) where
  xml_string : String
  xml_tree : XmlTree
  certificate : Option Cert

/-- Model of `XmlParser.__init__`: store the certificate (the class
attribute stays `None` when the argument is `None`), parse the request,
and if `is_signed` holds replace the working tree with the result of
`parse_signed`. -/
def XmlParser.init {Cert : Type} (ext : Deps Cert) (xml_string : String)
    (certificate : Option Cert) : Except ParserError (XmlParser Cert) := do
  let tree ← parse_request ext xml_string
  if ext.is_signed tree then
    let signed ← parse_signed ext tree certificate
    pure ⟨xml_string, signed, certificate⟩
  else
    pure ⟨xml_string, tree, certificate⟩

/-- Modelled from the spec: `NAMESPACE_MAP` is imported from
`flask_saml2.xml_templates`, a module of this repository that is not among
the sources under review.  Per the spec it is "a namespace table mapping
prefixes to protocol XML namespace URIs (static configuration, not
attacker-influenced)". -/
def NAMESPACE_MAP : List (String × String) :=
  [("ds", "http://www.w3.org/2000/09/xmldsig#"),
   ("md", "urn:oasis:names:tc:SAML:2.0:metadata"),
   ("saml", "urn:oasis:names:tc:SAML:2.0:assertion"),
   ("samlp", "urn:oasis:names:tc:SAML:2.0:protocol")]

/-- Model of `XmlParser.get_namespace_map`: returns the static
`NAMESPACE_MAP`, ignoring all instance state. -/
def XmlParser.get_namespace_map {Cert : Type} (_self : XmlParser Cert) :
    List (String × String) := NAMESPACE_MAP

/-- Model of `XmlParser._xpath`: evaluates an XPath statement on a base
node with `namespaces=self.get_namespace_map()`. -/
def XmlParser.xpathOn {Cert : Type} (ext : Deps Cert) (self : XmlParser Cert)
    (base : XmlTree) (xpath_statement : String) : List XmlTree :=
  ext.xpath base xpath_statement self.get_namespace_map

/-- Model of `XmlParser._xpath_xml_tree`: `self._xpath(self.xml_tree, stmt)`. -/
def XmlParser.xpathTree {Cert : Type} (ext : Deps Cert) (self : XmlParser Cert)
    (xpath_statement : String) : List XmlTree :=
  self.xpathOn ext self.xml_tree xpath_statement

/-! Concrete objects used to evaluate the theorems at specific inputs. -/

/-- A concrete element: the signed assertion a verifier certifies. -/
def assertionNode : XmlTree := .node "Assertion" [] []

/-- A concrete signed document root holding the assertion. -/
def responseNode : XmlTree := .node "Response" [] [assertionNode]

/-- A concrete unsigned document. -/
def plainNode : XmlTree := .node "Plain" [] []

/-- A concrete instantiation of the collaborators, consistent with the real
libraries on the inputs used below: a string with no start tag is rejected
the way lxml rejects it, a document whose root is a `Response` counts as
signed, and verification certifies the assertion subtree unless the
supplied certificate is the mismatched one. -/
def exDeps : Deps String :=
  ⟨fun s =>
      if s.data.contains '<' then
        if s.data.contains 'S' then .ok responseNode else .ok plainNode
      else .error (.error "Start tag expected"),
   fun t => match t with | .node tag _ _ => tag == "Response",
   fun _ cert => match cert with
     | some "bad" => .error .invalidDigest
     | _ => .ok ⟨assertionNode⟩,
   fun _ _ _ => [assertionNode]⟩

/-! Substring occurrence on strings, used to state that the fixed error
message contains a given input verbatim. -/

/-- `charsLead p l` holds when `p` is an initial segment of `l`. -/
def charsLead : List Char → List Char → Bool
  | [], _ => true
  | _ :: _, [] => false
  | a :: as, b :: bs => a == b && charsLead as bs

/-- `charsOccur p l` holds when `p` occurs contiguously somewhere in `l`. -/
def charsOccur (needle : List Char) : List Char → Bool
  | [] => charsLead needle []
  | b :: bs => charsLead needle (b :: bs) || charsOccur needle bs

/-- `strOccursIn needle hay` holds when `needle` occurs contiguously in
`hay`. -/
def strOccursIn (needle hay : String) : Bool :=
  charsOccur needle.data hay.data

/-- C1: for every well-formed signed document whose signature is valid
under the supplied certificate, `__init__` succeeds and the working tree
is replaced by exactly the `signed_xml` of the verification result — every
element of the resulting tree is the verifier-certified subtree, with no
unsigned sibling, ancestor or injected element. -/
theorem init_verified_replaces_tree {Cert : Type} (ext : Deps Cert)
    (s : String) (cert : Option Cert) (tree : XmlTree) (res : VerifyResult)
    (hparse : ext.fromstring s = .ok tree)
    (hsig : ext.is_signed tree = true)
    (hver : ext.verify tree cert = .ok res) :
    XmlParser.init ext s cert = .ok ⟨s, res.signed_xml, cert⟩ := by
  simp [XmlParser.init, parse_request, parse_signed, hparse, hsig, hver,
    Bind.bind, Except.bind, Functor.map, Except.map, Pure.pure, Except.pure]

/-- C1 witness: the theorem evaluated on the concrete collaborators. -/
theorem init_verified_replaces_tree_witness :
    exDeps.fromstring "<S/>" = .ok responseNode ∧
    exDeps.is_signed responseNode = true ∧
    exDeps.verify responseNode (some "good") = .ok ⟨assertionNode⟩ ∧
    XmlParser.init exDeps "<S/>" (some "good") =
      .ok ⟨"<S/>", assertionNode, some "good"⟩ :=
  ⟨rfl, rfl, rfl,
   init_verified_replaces_tree exDeps "<S/>" (some "good") responseNode
     ⟨assertionNode⟩ rfl rfl rfl⟩

/-- C2: when `is_signed` holds but cryptographic verification fails, the
parse terminates with the verification error (a `SignatureInvalid`
outcome); it never yields a parser state, so the document is never treated
as unsigned or verified. -/
theorem init_signature_failure_propagates {Cert : Type} (ext : Deps Cert)
    (s : String) (cert : Option Cert) (tree : XmlTree) (e : VerifyError)
    (hparse : ext.fromstring s = .ok tree)
    (hsig : ext.is_signed tree = true)
    (hver : ext.verify tree cert = .error e) :
    XmlParser.init ext s cert = .error (.signatureInvalid e) := by
  simp [XmlParser.init, parse_request, parse_signed, hparse, hsig, hver,
    Bind.bind, Except.bind, Functor.map, Except.map, Pure.pure, Except.pure]

/-- C2 witness: a digest mismatch under the mismatched certificate. -/
theorem init_signature_failure_propagates_witness :
    exDeps.fromstring "<S/>" = .ok responseNode ∧
    exDeps.is_signed responseNode = true ∧
    exDeps.verify responseNode (some "bad") = .error .invalidDigest ∧
    XmlParser.init exDeps "<S/>" (some "bad") =
      .error (.signatureInvalid .invalidDigest) :=
  ⟨rfl, rfl, rfl,
   init_signature_failure_propagates exDeps "<S/>" (some "bad") responseNode
     .invalidDigest rfl rfl rfl⟩

/-- C3: for every well-formed document with `is_signed` false, the outcome
keeps the full parsed tree, unaltered, and verification is never invoked:
the result is the same for every possible verifier. -/
theorem init_unsigned_keeps_tree {Cert : Type} (ext : Deps Cert)
    (s : String) (cert : Option Cert) (tree : XmlTree)
    (hparse : ext.fromstring s = .ok tree)
    (hsig : ext.is_signed tree = false) :
    XmlParser.init ext s cert = .ok ⟨s, tree, cert⟩ ∧
    ∀ verify2,
      XmlParser.init ⟨ext.fromstring, ext.is_signed, verify2, ext.xpath⟩ s cert =
        .ok ⟨s, tree, cert⟩ := by
  refine ⟨?_, fun verify2 => ?_⟩ <;>
    simp [XmlParser.init, parse_request, hparse, hsig,
      Bind.bind, Except.bind, Functor.map, Except.map, Pure.pure, Except.pure]

/-- C3 witness: the unsigned document keeps its full tree. -/
theorem init_unsigned_keeps_tree_witness :
    exDeps.fromstring "<P/>" = .ok plainNode ∧
    exDeps.is_signed plainNode = false ∧
    (XmlParser.init exDeps "<P/>" (some "good") =
        .ok ⟨"<P/>", plainNode, some "good"⟩ ∧
      ∀ verify2,
        XmlParser.init ⟨exDeps.fromstring, exDeps.is_signed, verify2, exDeps.xpath⟩
            "<P/>" (some "good") =
          .ok ⟨"<P/>", plainNode, some "good"⟩) :=
  ⟨rfl, rfl,
   init_unsigned_keeps_tree exDeps "<P/>" (some "good") plainNode rfl rfl⟩

/-- C4 counterexample: the input `"XML"` is not well-formed XML (it has no
start tag, so lxml rejects it — the concrete collaborators reject exactly
such inputs), yet the fixed `ValueError` message
`"Could not parse request XML"` contains that raw input verbatim as a
substring.  So "never containing the raw attacker-supplied input verbatim"
fails as stated. -/
theorem parse_request_message_contains_input :
    exDeps.fromstring "XML" = .error (.error "Start tag expected") ∧
    parse_request exDeps "XML" = .error (.valueError parseRequestMessage) ∧
    strOccursIn "XML" parseRequestMessage = true :=
  ⟨rfl, rfl, rfl⟩

/-- C4 amended: for every input the safe parser rejects, `parse_request`
raises a `ValueError` whose message is the fixed constant
`"Could not parse request XML"`, independent of the input (so the message
never echoes attacker-controlled content, although a short input may
coincide with a substring of the constant), and `__init__` propagates that
error so no tree is produced. -/
theorem parse_request_fixed_message {Cert : Type} (ext : Deps Cert)
    (s : String) (cert : Option Cert) (e : LxmlError)
    (h : ext.fromstring s = .error e) :
    parse_request ext s = .error (.valueError parseRequestMessage) ∧
    XmlParser.init ext s cert = .error (.valueError parseRequestMessage) := by
  constructor <;>
    simp [parse_request, XmlParser.init, h,
      Bind.bind, Except.bind, Functor.map, Except.map, Pure.pure, Except.pure]

/-- C4 witness: the amended theorem evaluated on the rejected input. -/
theorem parse_request_fixed_message_witness :
    exDeps.fromstring "XML" = .error (.error "Start tag expected") ∧
    (parse_request exDeps "XML" = .error (.valueError parseRequestMessage) ∧
      XmlParser.init exDeps "XML" (some "good") =
        .error (.valueError parseRequestMessage)) :=
  ⟨rfl,
   parse_request_fixed_message exDeps "XML" (some "good")
     (.error "Start tag expected") rfl⟩

/-- C6 counterexample: parsing the same signed document with no certificate
and with a caller-supplied certificate yields the same working tree, and
the resulting states differ only in echoing the certificate argument — the
state type has no low-assurance marker, so the embedded-certificate result
is silently equivalent to trust-anchored verification, contradicting the
claim of a distinct outcome. -/
theorem init_no_cert_outcome_not_distinct :
    XmlParser.init exDeps "<S/>" (none : Option String) =
      .ok ⟨"<S/>", assertionNode, none⟩ ∧
    XmlParser.init exDeps "<S/>" (some "good") =
      .ok ⟨"<S/>", assertionNode, some "good"⟩ ∧
    Except.map XmlParser.xml_tree (XmlParser.init exDeps "<S/>" (none : Option String)) =
      Except.map XmlParser.xml_tree (XmlParser.init exDeps "<S/>" (some "good")) :=
  ⟨rfl, rfl, rfl⟩

/-- C6 amended: when no certificate is supplied and the document is signed,
verification is still attempted, with `x509_cert = None` so that signxml
uses only the certificate embedded in the document; but the result is not
a distinct outcome: whenever caller-supplied verification certifies the
same subtree, the resulting working trees are identical, the states
differing only in the stored certificate argument. -/
theorem init_no_cert_uses_embedded_verify {Cert : Type} (ext : Deps Cert)
    (s : String) (tree : XmlTree) (res : VerifyResult)
    (hparse : ext.fromstring s = .ok tree)
    (hsig : ext.is_signed tree = true)
    (hver : ext.verify tree none = .ok res) :
    XmlParser.init ext s none = .ok ⟨s, res.signed_xml, none⟩ ∧
    ∀ (c : Cert) (res2 : VerifyResult),
      ext.verify tree (some c) = .ok res2 →
      res2.signed_xml = res.signed_xml →
      Except.map XmlParser.xml_tree (XmlParser.init ext s (some c)) =
        Except.map XmlParser.xml_tree (XmlParser.init ext s none) := by
  refine ⟨?_, fun c res2 hver2 hsame => ?_⟩ <;>
    simp [XmlParser.init, parse_request, parse_signed, hparse, hsig, hver, *,
      Bind.bind, Except.bind, Functor.map, Except.map, Pure.pure, Except.pure]

/-- C6 witness: the amended theorem evaluated on the concrete
collaborators. -/
theorem init_no_cert_uses_embedded_verify_witness :
    exDeps.fromstring "<S/>" = .ok responseNode ∧
    exDeps.is_signed responseNode = true ∧
    exDeps.verify responseNode none = .ok ⟨assertionNode⟩ ∧
    (XmlParser.init exDeps "<S/>" none = .ok ⟨"<S/>", assertionNode, none⟩ ∧
      ∀ (c : String) (res2 : VerifyResult),
        exDeps.verify responseNode (some c) = .ok res2 →
        res2.signed_xml = assertionNode →
        Except.map XmlParser.xml_tree (XmlParser.init exDeps "<S/>" (some c)) =
          Except.map XmlParser.xml_tree (XmlParser.init exDeps "<S/>" none)) :=
  ⟨rfl, rfl, rfl,
   init_no_cert_uses_embedded_verify exDeps "<S/>" responseNode
     ⟨assertionNode⟩ rfl rfl rfl⟩

/-- C7: loading is deterministic — two invocations of `__init__` with the
same input string and the same certificate yield structurally identical
outcomes. -/
theorem init_deterministic {Cert : Type} (ext : Deps Cert) (s : String)
    (cert : Option Cert) (r1 r2 : Except ParserError (XmlParser Cert))
    (h1 : XmlParser.init ext s cert = r1)
    (h2 : XmlParser.init ext s cert = r2) : r1 = r2 :=
  h1.symm.trans h2

/-- C7 witness: determinism evaluated at a concrete load. -/
theorem init_deterministic_witness :
    XmlParser.init exDeps "<S/>" (some "good") =
      .ok ⟨"<S/>", assertionNode, some "good"⟩ ∧
    (Except.ok ⟨"<S/>", assertionNode, some "good"⟩ :
        Except ParserError (XmlParser String)) =
      .ok ⟨"<S/>", assertionNode, some "good"⟩ :=
  ⟨rfl,
   init_deterministic exDeps "<S/>" (some "good") _ _ rfl rfl⟩

/-- C8: every lookup through the query surface is evaluated against the one
static `NAMESPACE_MAP`: `get_namespace_map` returns the same table for
every parser instance (whatever its certificate or document), and both
`_xpath` and `_xpath_xml_tree` pass exactly that table to the XPath
evaluation. -/
theorem xpath_uses_fixed_namespace_map {γ δ : Type} (ext : Deps γ)
    (p : XmlParser γ) (q : XmlParser δ) (base : XmlTree) (stmt : String) :
    p.get_namespace_map = NAMESPACE_MAP ∧
    q.get_namespace_map = p.get_namespace_map ∧
    XmlParser.xpathOn ext p base stmt = ext.xpath base stmt NAMESPACE_MAP ∧
    XmlParser.xpathTree ext p stmt = ext.xpath p.xml_tree stmt NAMESPACE_MAP :=
  ⟨rfl, rfl, rfl, rfl⟩

/-! Model of `flask_saml2.utils.cached_property`.  A descriptor holding the
wrapped function and its `__name__`; the owning object's `__dict__` is
modelled as a partial map from attribute names to values. -/

/-- The `cached_property` descriptor: `__name__` (taken from the wrapped
function) and the wrapped function `func`. -/
structure CachedProp (σ β : Type) where
  attr_name : String
  func : σ → β

/-- A Python object's `__dict__`, as a partial map from names to values. -/
def ObjDict (β : Type) := String → Option β

/-- Store a value under a key in a `__dict__`. -/
def ObjDict.store {β : Type} (d : ObjDict β) (k : String) (v : β) : ObjDict β :=
  fun x => if x = k then some v else d x

/-- The `AttributeError` raised by the descriptor's `__set__` and
`__delete__`.  In the source the f-string in the message itself evaluates
`self.name`, an attribute the descriptor does not have, so the exception
actually raised is the `AttributeError` from that lookup — either way an
`AttributeError` is raised before any state is touched. -/
inductive PyAttrError where
  | attributeError
deriving DecidableEq, Repr

/-- Model of `cached_property.__get__` (with a non-`None` instance): look
the name up in the object's `__dict__`; if missing, call `func`, store the
result, and return it; otherwise return the stored value.  The returned
`Bool` records whether `func` was invoked during this access. -/
def cached_property.get {σ β : Type} (p : CachedProp σ β) (obj : σ)
    (d : ObjDict β) : β × ObjDict β × Bool :=
  match d p.attr_name with
  | some value => (value, d, false)
  | none =>
      let value := p.func obj
      (value, d.store p.attr_name value, true)

/-- Model of `cached_property.__set__`: raises `AttributeError`
unconditionally, returning no updated `__dict__`. -/
def cached_property.set {σ β : Type} (_p : CachedProp σ β) (_inst : σ)
    (_value : β) (_d : ObjDict β) : Except PyAttrError (ObjDict β) :=
  .error .attributeError

/-- Model of `cached_property.__delete__`: raises `AttributeError`
unconditionally, returning no updated `__dict__`. -/
def cached_property.delete {σ β : Type} (_p : CachedProp σ β) (_inst : σ)
    (_d : ObjDict β) : Except PyAttrError (ObjDict β) :=
  .error .attributeError

/-- C9: on an object whose `__dict__` does not yet hold the attribute, the
first access calls `func` and stores the result under the attribute's
name; every later access — through any descriptor with the same name,
whatever its function — returns that same stored value without invoking
the function and without changing the `__dict__` (so `func` runs at most
once per object); and any attempt to assign to or delete the attribute
raises `AttributeError` and yields no updated `__dict__`, leaving the
cached value unchanged. -/
theorem cached_property_spec {σ β : Type} (p : CachedProp σ β) (obj : σ)
    (d : ObjDict β) (hmiss : d p.attr_name = none) :
    cached_property.get p obj d =
      (p.func obj, d.store p.attr_name (p.func obj), true) ∧
    (∀ (q : CachedProp σ β) (obj2 : σ), q.attr_name = p.attr_name →
      cached_property.get q obj2 (d.store p.attr_name (p.func obj)) =
        (p.func obj, d.store p.attr_name (p.func obj), false)) ∧
    (∀ v, cached_property.set p obj v d = .error .attributeError) ∧
    cached_property.delete p obj d = .error .attributeError ∧
    (d.store p.attr_name (p.func obj)) p.attr_name = some (p.func obj) := by
  refine ⟨?_, fun q obj2 hname => ?_, fun v => rfl, rfl, ?_⟩
  · simp [cached_property.get, hmiss]
  · simp [cached_property.get, hname, ObjDict.store]
  · simp [ObjDict.store]

/-- C9 witness: the theorem evaluated on a concrete object with an empty
`__dict__` and a function returning `42`. -/
theorem cached_property_spec_witness :
    ((fun _ => none : ObjDict Nat) "foo" = none) ∧
    (cached_property.get ⟨"foo", fun _ : Unit => 42⟩ () (fun _ => none) =
        (42, ObjDict.store (fun _ => none) "foo" 42, true) ∧
      (∀ (q : CachedProp Unit Nat) (obj2 : Unit), q.attr_name = "foo" →
        cached_property.get q obj2 (ObjDict.store (fun _ => none) "foo" 42) =
          (42, ObjDict.store (fun _ => none) "foo" 42, false)) ∧
      (∀ v, cached_property.set ⟨"foo", fun _ : Unit => 42⟩ () v (fun _ => none) =
        .error .attributeError) ∧
      cached_property.delete ⟨"foo", fun _ : Unit => 42⟩ () (fun _ => none) =
        .error .attributeError ∧
      (ObjDict.store (fun _ => none) "foo" 42) "foo" = some 42) :=
  ⟨rfl, cached_property_spec ⟨"foo", fun _ : Unit => 42⟩ () (fun _ => none) rfl⟩

/-! Model of `certificate_to_string` / `certificate_from_string`
(`flask_saml2/utils.py`).  The Python functions delegate to the
`cryptography` library: `certificate.public_bytes(Encoding.PEM)` and
`x509.load_pem_x509_certificate`.  We model a certificate by its DER byte
sequence (the library compares certificates by exactly these bytes), and
PEM serialisation concretely as its documented format: the
`-----BEGIN CERTIFICATE-----` line, the DER bytes in base64 wrapped at 64
characters per line, and the `-----END CERTIFICATE-----` line. -/

/-- The base64 alphabet of RFC 4648, as used by PEM: sextet to character. -/
def b64Char (n : Nat) : Char :=
  if n < 26 then Char.ofNat (65 + n)
  else if n < 52 then Char.ofNat (97 + (n - 26))
  else if n < 62 then Char.ofNat (48 + (n - 52))
  else if n = 62 then '+'
  else '/'

/-- Inverse of the base64 alphabet: character to sextet, `none` for
characters outside the alphabet (including the padding `'='`). -/
def b64Val (c : Char) : Option Nat :=
  if 'A' ≤ c ∧ c ≤ 'Z' then some (c.toNat - 65)
  else if 'a' ≤ c ∧ c ≤ 'z' then some (c.toNat - 97 + 26)
  else if '0' ≤ c ∧ c ≤ '9' then some (c.toNat - 48 + 52)
  else if c = '+' then some 62
  else if c = '/' then some 63
  else none

/-- Base64-encode a byte sequence, three bytes to four characters, with
`'='` padding for a trailing one- or two-byte group. -/
def b64EncodeChunks : List Nat → List Char
  | [] => []
  | [b0] => [b64Char (b0 / 4), b64Char (b0 % 4 * 16), '=', '=']
  | [b0, b1] =>
      [b64Char (b0 / 4), b64Char (b0 % 4 * 16 + b1 / 16), b64Char (b1 % 16 * 4), '=']
  | b0 :: b1 :: b2 :: rest =>
      b64Char (b0 / 4) :: b64Char (b0 % 4 * 16 + b1 / 16) ::
        b64Char (b1 % 16 * 4 + b2 / 64) :: b64Char (b2 % 64) :: b64EncodeChunks rest

/-- Base64-decode a character sequence, four characters to three bytes; a
padded group is accepted only at the end, and only with zero spare bits,
as a strict decoder requires. -/
def b64DecodeChunks : List Char → Option (List Nat)
  | [] => some []
  | c0 :: c1 :: c2 :: c3 :: rest =>
      if c2 = '=' ∧ c3 = '=' ∧ rest = [] then
        match b64Val c0, b64Val c1 with
        | some s0, some s1 =>
            if s1 % 16 = 0 then some [s0 * 4 + s1 / 16] else none
        | _, _ => none
      else if c3 = '=' ∧ rest = [] then
        match b64Val c0, b64Val c1, b64Val c2 with
        | some s0, some s1, some s2 =>
            if s2 % 4 = 0 then
              some [s0 * 4 + s1 / 16, s1 % 16 * 16 + s2 / 4]
            else none
        | _, _, _ => none
      else
        match b64Val c0, b64Val c1, b64Val c2, b64Val c3, b64DecodeChunks rest with
        | some s0, some s1, some s2, some s3, some bs =>
            some ((s0 * 4 + s1 / 16) :: (s1 % 16 * 16 + s2 / 4) :: (s2 % 4 * 64 + s3) :: bs)
        | _, _, _, _, _ => none
  | _ => none

/-- Break a character sequence into lines of 64 characters, each line (the
last included) terminated by a newline, as PEM body lines are. -/
def wrap64 (l : List Char) : List Char :=
  match l with
  | [] => []
  | c :: cs => ((c :: cs).take 64) ++ '\n' :: wrap64 ((c :: cs).drop 64)
termination_by l.length
decreasing_by simp [List.length_drop]; omega

/-- Remove every newline, as a PEM reader does before base64-decoding the
body. -/
def stripNewlines (l : List Char) : List Char :=
  l.filter (fun c => c != '\n')

/-- The PEM certificate header line, newline included. -/
def pemHeaderLine : List Char := "-----BEGIN CERTIFICATE-----\n".data

/-- The PEM certificate footer line, newline included. -/
def pemFooterLine : List Char := "-----END CERTIFICATE-----\n".data

/-- PEM-encode a DER byte sequence: header line, base64 body wrapped at 64
characters per line, footer line. -/
def pemEncode (der : List Nat) : List Char :=
  pemHeaderLine ++ (wrap64 (b64EncodeChunks der) ++ pemFooterLine)

/-- `charsEndWith p l` holds when `p` is a final segment of `l`. -/
def charsEndWith (p l : List Char) : Bool :=
  charsLead p.reverse l.reverse

/-- PEM-decode: require the header line at the start and the footer line at
the end, strip the newlines of the body in between, base64-decode it. -/
def pemDecode (l : List Char) : Option (List Nat) :=
  if charsLead pemHeaderLine l then
    let body := l.drop pemHeaderLine.length
    if charsEndWith pemFooterLine body then
      b64DecodeChunks (stripNewlines (body.take (body.length - pemFooterLine.length)))
    else none
  else none

/-- A certificate, identified by its DER byte sequence: the `cryptography`
library's `x509.Certificate.__eq__` compares exactly these bytes. -/
structure Certificate where
  der : List Nat
deriving DecidableEq, Repr

/-- Model of `certificate_to_string`: PEM-encode the certificate and decode
the bytes as a string (PEM output is ASCII, so the UTF-8 decode is the
character-wise reading). -/
def certificate_to_string (c : Certificate) : String :=
  ⟨pemEncode c.der⟩

/-- Model of `certificate_from_string`: encode the string back to bytes and
load the PEM certificate, `none` when parsing fails. -/
def certificate_from_string (s : String) : Option Certificate :=
  (pemDecode s.data).map Certificate.mk

/-- Decoding inverts the base64 alphabet on every sextet. -/
theorem b64Val_b64Char : ∀ n, n < 64 → b64Val (b64Char n) = some n := by decide

/-- No sextet encodes to the padding character. -/
theorem b64Char_ne_pad : ∀ n, n < 64 → b64Char n ≠ '=' := by decide

/-- No sextet encodes to a newline. -/
theorem b64Char_ne_newline : ∀ n, n < 64 → b64Char n ≠ '\n' := by decide

/-- The base64 encoding of a byte sequence contains no newline. -/
theorem b64EncodeChunks_no_newline :
    ∀ (l : List Nat), (∀ b ∈ l, b < 256) → ∀ c ∈ b64EncodeChunks l, c ≠ '\n' := by
  intro l
  induction l using b64EncodeChunks.induct with
  | case1 => intro _ c hc; simp [b64EncodeChunks] at hc
  | case2 b0 =>
    intro h c hc
    have hb0 : b0 < 256 := h b0 (by simp)
    simp only [b64EncodeChunks] at hc
    rcases List.mem_cons.mp hc with hceq | hc
    · rw [hceq]; exact b64Char_ne_newline _ (by omega)
    rcases List.mem_cons.mp hc with hceq | hc
    · rw [hceq]; exact b64Char_ne_newline _ (by omega)
    rcases List.mem_cons.mp hc with hceq | hc
    · rw [hceq]; decide
    rcases List.mem_cons.mp hc with hceq | hc
    · rw [hceq]; decide
    · exact absurd hc (List.not_mem_nil c)
  | case3 b0 b1 =>
    intro h c hc
    have hb0 : b0 < 256 := h b0 (by simp)
    have hb1 : b1 < 256 := h b1 (by simp)
    simp only [b64EncodeChunks] at hc
    rcases List.mem_cons.mp hc with hceq | hc
    · rw [hceq]; exact b64Char_ne_newline _ (by omega)
    rcases List.mem_cons.mp hc with hceq | hc
    · rw [hceq]; exact b64Char_ne_newline _ (by omega)
    rcases List.mem_cons.mp hc with hceq | hc
    · rw [hceq]; exact b64Char_ne_newline _ (by omega)
    rcases List.mem_cons.mp hc with hceq | hc
    · rw [hceq]; decide
    · exact absurd hc (List.not_mem_nil c)
  | case4 b0 b1 b2 rest ih =>
    intro h c hc
    have hb0 : b0 < 256 := h b0 (by simp)
    have hb1 : b1 < 256 := h b1 (by simp)
    have hb2 : b2 < 256 := h b2 (by simp)
    simp only [b64EncodeChunks] at hc
    rcases List.mem_cons.mp hc with hceq | hc
    · rw [hceq]; exact b64Char_ne_newline _ (by omega)
    rcases List.mem_cons.mp hc with hceq | hc
    · rw [hceq]; exact b64Char_ne_newline _ (by omega)
    rcases List.mem_cons.mp hc with hceq | hc
    · rw [hceq]; exact b64Char_ne_newline _ (by omega)
    rcases List.mem_cons.mp hc with hceq | hc
    · rw [hceq]; exact b64Char_ne_newline _ (by omega)
    · exact ih (fun b hb => h b (by simp [hb])) c hc

/-- Base64 decoding inverts base64 encoding on byte sequences. -/
theorem b64DecodeChunks_b64EncodeChunks :
    ∀ (l : List Nat), (∀ b ∈ l, b < 256) →
      b64DecodeChunks (b64EncodeChunks l) = some l := by
  intro l
  induction l using b64EncodeChunks.induct with
  | case1 => intro _; rfl
  | case2 b0 =>
    intro h
    have hb0 : b0 < 256 := h b0 (by simp)
    have h1 : b0 / 4 < 64 := by omega
    have h2 : b0 % 4 * 16 < 64 := by omega
    simp only [b64EncodeChunks, b64DecodeChunks, and_self, if_true,
      b64Val_b64Char _ h1, b64Val_b64Char _ h2]
    rw [if_pos (show b0 % 4 * 16 % 16 = 0 by omega),
      show b0 / 4 * 4 + b0 % 4 * 16 / 16 = b0 by omega]
  | case3 b0 b1 =>
    intro h
    have hb0 : b0 < 256 := h b0 (by simp)
    have hb1 : b1 < 256 := h b1 (by simp)
    have h1 : b0 / 4 < 64 := by omega
    have h2 : b0 % 4 * 16 + b1 / 16 < 64 := by omega
    have h3 : b1 % 16 * 4 < 64 := by omega
    simp only [b64EncodeChunks, b64DecodeChunks, and_self, if_true,
      false_and, if_false, b64Char_ne_pad _ h3,
      b64Val_b64Char _ h1, b64Val_b64Char _ h2, b64Val_b64Char _ h3]
    rw [if_pos (show b1 % 16 * 4 % 4 = 0 by omega),
      show b0 / 4 * 4 + (b0 % 4 * 16 + b1 / 16) / 16 = b0 by omega,
      show (b0 % 4 * 16 + b1 / 16) % 16 * 16 + b1 % 16 * 4 / 4 = b1 by omega]
  | case4 b0 b1 b2 rest ih =>
    intro h
    have hb0 : b0 < 256 := h b0 (by simp)
    have hb1 : b1 < 256 := h b1 (by simp)
    have hb2 : b2 < 256 := h b2 (by simp)
    have h1 : b0 / 4 < 64 := by omega
    have h2 : b0 % 4 * 16 + b1 / 16 < 64 := by omega
    have h3 : b1 % 16 * 4 + b2 / 64 < 64 := by omega
    have h4 : b2 % 64 < 64 := by omega
    have hrest := ih (fun b hb => h b (by simp [hb]))
    simp only [b64EncodeChunks, b64DecodeChunks, and_self, if_true,
      false_and, if_false, b64Char_ne_pad _ h3, b64Char_ne_pad _ h4,
      b64Val_b64Char _ h1, b64Val_b64Char _ h2, b64Val_b64Char _ h3,
      b64Val_b64Char _ h4, hrest]
    rw [show b0 / 4 * 4 + (b0 % 4 * 16 + b1 / 16) / 16 = b0 by omega,
      show (b0 % 4 * 16 + b1 / 16) % 16 * 16 + (b1 % 16 * 4 + b2 / 64) / 4 = b1 by omega,
      show (b1 % 16 * 4 + b2 / 64) % 4 * 64 + b2 % 64 = b2 by omega]

/-- Stripping newlines undoes the 64-column line wrapping. -/
theorem stripNewlines_wrap64 :
    ∀ l : List Char, stripNewlines (wrap64 l) = stripNewlines l := by
  intro l
  induction l using wrap64.induct with
  | case1 => simp [wrap64]
  | case2 c cs ih =>
    have key : stripNewlines ('\n' :: wrap64 ((c :: cs).drop 64)) =
        stripNewlines (wrap64 ((c :: cs).drop 64)) := by
      simp [stripNewlines, List.filter_cons]
    calc stripNewlines (wrap64 (c :: cs))
        = stripNewlines ((c :: cs).take 64) ++
            stripNewlines ('\n' :: wrap64 ((c :: cs).drop 64)) := by
          rw [wrap64]; exact List.filter_append _ _
      _ = stripNewlines ((c :: cs).take 64) ++ stripNewlines ((c :: cs).drop 64) := by
          rw [key, ih]
      _ = stripNewlines (c :: cs) := by
          simp only [stripNewlines, ← List.filter_append, List.take_append_drop]

/-- Stripping newlines from a newline-free sequence is the identity. -/
theorem stripNewlines_eq_self (l : List Char) (h : ∀ c ∈ l, c ≠ '\n') :
    stripNewlines l = l := by
  refine List.filter_eq_self.mpr fun a ha => ?_
  simpa using h a ha

/-- A sequence leads with its own initial segment. -/
theorem charsLead_append (p r : List Char) : charsLead p (p ++ r) = true := by
  induction p with
  | nil => rfl
  | cons a as ih => simp [charsLead, ih]

/-- A sequence ends with its own final segment. -/
theorem charsEndWith_append (p r : List Char) : charsEndWith p (r ++ p) = true := by
  simp only [charsEndWith, List.reverse_append]
  exact charsLead_append p.reverse r.reverse

/-- PEM decoding inverts PEM encoding on byte sequences. -/
theorem pemDecode_pemEncode (der : List Nat) (h : ∀ b ∈ der, b < 256) :
    pemDecode (pemEncode der) = some der := by
  rw [pemEncode, pemDecode]
  rw [if_pos (charsLead_append pemHeaderLine _), List.drop_left]
  rw [if_pos (charsEndWith_append pemFooterLine _)]
  have hlen : (wrap64 (b64EncodeChunks der) ++ pemFooterLine).length -
      pemFooterLine.length = (wrap64 (b64EncodeChunks der)).length := by
    simp [List.length_append]
  rw [hlen, List.take_left' rfl, stripNewlines_wrap64,
    stripNewlines_eq_self _ (b64EncodeChunks_no_newline der h),
    b64DecodeChunks_b64EncodeChunks der h]

/-- C10: PEM-encoding a certificate to a string and re-parsing it yields a
certificate equal to the original (equality being the library's
DER-byte-wise certificate equality). -/
theorem certificate_round_trip (c : Certificate)
    (h : ∀ b ∈ c.der, b < 256) :
    certificate_from_string (certificate_to_string c) = some c := by
  show (pemDecode (pemEncode c.der)).map Certificate.mk = some c
  rw [pemDecode_pemEncode c.der h]
  rfl

/-- C10 witness: the round trip evaluated on a concrete DER byte
sequence. -/
theorem certificate_round_trip_witness :
    (∀ b ∈ [48, 130, 2, 1, 0, 255], b < 256) ∧
    certificate_from_string (certificate_to_string ⟨[48, 130, 2, 1, 0, 255]⟩) =
      some ⟨[48, 130, 2, 1, 0, 255]⟩ :=
  ⟨by decide, certificate_round_trip ⟨[48, 130, 2, 1, 0, 255]⟩ (by decide)⟩

end FlaskSaml2
